import Mathlib

/-! Verification of the pacemaker DCM communication core
(`src/pacemaker-master/handlers.py`) against its specification.

Shallow embedding conventions:
* bytes are `Nat` values (always `< 256` where produced by the code);
  byte strings are `List Nat`;
* Python machine floats that are packed/unpacked with the `f` struct format
  are embedded by their IEEE-754 single-precision bit pattern, a `Nat < 2^32`;
  the wire encoding of such a float is the little-endian 4-byte rendering of
  that pattern, exactly as CPython's `struct` lays it out with the `=` prefix
  on a little-endian host;
* `Optional[str]` attributes of `serial.tools.list_ports_common.ListPortInfo`
  are `Option String` (Python `None` is `none`);
* fallible Python code (raising `KeyError`, `struct.error`, `AttributeError`)
  becomes `Option`/`Except`-valued definitions.
-/

/-- The `PacemakerState` enum from handlers.py. -/
inductive PacemakerState where
  | NOT_CONNECTED
  | CONNECTED
  | REGISTERED
deriving DecidableEq, Repr

/-- Little-endian 4-byte rendering of a 32-bit word, as `struct.pack` emits a
single-precision float's bit pattern on a little-endian host. -/
def le32 (n : Nat) : List Nat :=
  [n % 256, n / 256 % 256, n / 65536 % 256, n / 16777216 % 256]

/-- Regroup a byte string into 32-bit little-endian words, as
`struct.unpack_from` reads consecutive 4-byte floats. Trailing bytes that do
not fill a word are ignored (unreachable in the modelled code paths). -/
def words4 : List Nat → List Nat
  | b0 :: b1 :: b2 :: b3 :: rest =>
      (b0 + 256 * b1 + 65536 * b2 + 16777216 * b3) :: words4 rest
  | _ => []

/-- The three struct field formats occurring in `_PARAMS_FMT_STR = "=3BfB2fBf4H5B"`:
`B` unsigned char, `H` unsigned short, `f` single-precision float. -/
inductive FieldType where
  | b
  | h
  | f
deriving DecidableEq, Repr

/-- The `struct.calcsize` contribution of one field format. -/
def FieldType.size : FieldType → Nat
  | .b => 1
  | .h => 2
  | .f => 4

/-- A Python numeric value as stored in the parameter dict: an `int`, or a
machine float embedded by its IEEE-754 single bit pattern. -/
inductive PyValue where
  | int (i : Int)
  | float (bits : Nat)
deriving DecidableEq, Repr

/-- Packing of one value under one struct field format.  `B`/`H` demand an
`int` in range (CPython raises `struct.error` otherwise, and rejects floats
for integer formats); `f` lays out the float's bit pattern little-endian.
ParameterSets under consideration carry float values in the `f` slots per the
schema, so the CPython int-to-float coercion for `f` is outside the model. -/
def packField : FieldType → PyValue → Option (List Nat)
  | .b, .int i => if 0 ≤ i ∧ i < 256 then some [i.toNat] else none
  | .h, .int i => if 0 ≤ i ∧ i < 65536 then some [i.toNat % 256, i.toNat / 256] else none
  | .f, .float bits => some (le32 bits)
  | _, _ => none

/-- The `struct.pack` over a format list and a value list: each value packed under
its format, results concatenated; arity mismatch or a bad value fails. -/
def packValues : List FieldType → List PyValue → Option (List Nat)
  | [], [] => some []
  | t :: ts, v :: vs =>
      (packField t v).bind fun b => (packValues ts vs).map fun bs => b ++ bs
  | _, _ => none

/-- The `_SerialHandler._PARAMS_ORDER` verbatim from handlers.py. -/
def PARAMS_ORDER : List String :=
  ["Pacing Mode", "Lower Rate Limit", "Upper Rate Limit", "Atrial Amplitude",
   "Atrial Pulse Width", "Atrial Sensitivity", "Ventricular Amplitude",
   "Ventricular Pulse Width", "Ventricular Sensitivity", "VRP", "ARP", "PVARP",
   "Fixed AV Delay", "Maximum Sensor Rate", "Reaction Time", "Response Factor",
   "Recovery Time", "Activity Threshold"]

/-- The field formats of `_PARAMS_FMT_STR = "=3BfB2fBf4H5B"` expanded
positionally: 3B, f, B, 2f, B, f, 4H, 5B. -/
def PARAMS_FMT : List FieldType :=
  [.b, .b, .b, .f, .b, .f, .f, .b, .f, .h, .h, .h, .h, .b, .b, .b, .b, .b]

/-- The `calcsize(_PARAMS_FMT_STR)`, i.e. `_SerialHandler._PARAMS_NUM_BYTES`. -/
def PARAMS_NUM_BYTES : Nat := (PARAMS_FMT.map FieldType.size).sum

/-- The `_num_floats = 20` from handlers.py. -/
def num_floats : Nat := 20

/-- The `calcsize(_ECG_FMT_STR)` where `_ECG_FMT_STR = "=20f"`. -/
def ECG_NUM_BYTES : Nat := 4 * num_floats

/-- The `calcsize(_ECG_DATA_STR)` where `_ECG_DATA_STR = "=10f"`. -/
def ECG_DATA : Nat := 4 * (num_floats / 2)

/-- The `_num_bytes_to_read = _ECG_NUM_BYTES + 1` from `_SerialHandler.__init__`. -/
def num_bytes_to_read : Nat := ECG_NUM_BYTES + 1

/-- A ParameterSet: the Python dict passed to `send_params_to_pacemaker`.
Lookup is by key, first binding wins (dict keys are unique). -/
def Params : Type := List (String × PyValue)

/-- Python dict access `params_to_send[key]`; `none` models `KeyError`. -/
def dictGet (p : Params) (k : String) : Option PyValue :=
  (List.find? (fun kv => kv.1 == k) p).map Prod.snd

/-- The list comprehension `[params_to_send[key] for key in _PARAMS_ORDER]`:
looks keys up left to right, failing on the first missing key. -/
def getParams : List String → Params → Option (List PyValue)
  | [], _ => some []
  | k :: ks, p =>
      (dictGet p k).bind fun v => (getParams ks p).map fun vs => v :: vs

/-- The encoding step of `_SerialHandler.send_params_to_pacemaker`:
`pack(_PARAMS_FMT_STR, *[params_to_send[key] for key in _PARAMS_ORDER])`. -/
def encodeParameterWrite (p : Params) : Option (List Nat) :=
  (getParams PARAMS_ORDER p).bind (packValues PARAMS_FMT)

/-- Spec-side helper: the bytes of one named field, looked up by name and
packed under its declared format. -/
def specFieldBytes (p : Params) (k : String) (t : FieldType) : Option (List Nat) :=
  (dictGet p k).bind (packField t)

/-- Spec-side encoder skeleton: fields processed strictly one after the other,
each looked up by name and packed, the byte blocks concatenated in order. -/
def specEncode : List (String × FieldType) → Params → Option (List Nat)
  | [], _ => some []
  | (k, t) :: rest, p =>
      (specFieldBytes p k t).bind fun b => (specEncode rest p).map fun bs => b ++ bs

/-- Modelled from the spec's words for claim C1: the 18 required fields in the
fixed declared order (Pacing Mode, Lower Rate Limit, Upper Rate Limit, Atrial
Amplitude, Atrial Pulse Width, Atrial Sensitivity, Ventricular Amplitude,
Ventricular Pulse Width, Ventricular Sensitivity, VRP, ARP, PVARP, Fixed AV
Delay, Maximum Sensor Rate, Reaction Time, Response Factor, Recovery Time,
Activity Threshold), each with its layout format. -/
def specFields : List (String × FieldType) :=
  [("Pacing Mode", .b), ("Lower Rate Limit", .b), ("Upper Rate Limit", .b),
   ("Atrial Amplitude", .f), ("Atrial Pulse Width", .b), ("Atrial Sensitivity", .f),
   ("Ventricular Amplitude", .f), ("Ventricular Pulse Width", .b),
   ("Ventricular Sensitivity", .f), ("VRP", .h), ("ARP", .h), ("PVARP", .h),
   ("Fixed AV Delay", .h), ("Maximum Sensor Rate", .b), ("Reaction Time", .b),
   ("Response Factor", .b), ("Recovery Time", .b), ("Activity Threshold", .b)]

/-- Spec-side encoder for claim C1: per-field lookup and pack, concatenated in
the claim's declared order. -/
def encodeParameterWriteSpec (p : Params) : Option (List Nat) :=
  specEncode specFields p

theorem packField_length {t : FieldType} {v : PyValue} {b : List Nat}
    (h : packField t v = some b) : b.length = t.size := by
  cases t <;> cases v <;> simp only [packField, le32] at h
  · split at h
    · cases h; rfl
    · cases h
  · cases h
  · split at h
    · cases h; rfl
    · cases h
  · cases h
  · cases h
  · cases h; rfl

theorem packValues_length : ∀ {ts : List FieldType} {vs : List PyValue} {bs : List Nat},
    packValues ts vs = some bs → bs.length = (ts.map FieldType.size).sum := by
  intro ts
  induction ts with
  | nil =>
    intro vs bs h
    cases vs with
    | nil => cases h; rfl
    | cons v vs => cases h
  | cons t ts ih =>
    intro vs bs h
    cases vs with
    | nil => cases h
    | cons v vs =>
      simp only [packValues] at h
      cases hb : packField t v with
      | none => rw [hb] at h; simp at h
      | some b =>
        cases hrest : packValues ts vs with
        | none => rw [hb, hrest] at h; simp at h
        | some bs2 =>
          rw [hb, hrest] at h
          cases h
          simp [List.length_append, packField_length hb, ih hrest]

theorem getParams_packValues_eq_specEncode :
    ∀ (pairs : List (String × FieldType)) (p : Params),
    (getParams (pairs.map Prod.fst) p).bind (packValues (pairs.map Prod.snd)) =
      specEncode pairs p := by
  intro pairs
  induction pairs with
  | nil => intro p; rfl
  | cons kt rest ih =>
    intro p
    obtain ⟨k, t⟩ := kt
    simp only [List.map_cons, getParams, specEncode, specFieldBytes]
    cases hv : dictGet p k with
    | none => simp
    | some v =>
      cases hr : getParams (rest.map Prod.fst) p with
      | none =>
        have hspec := ih p
        rw [hr] at hspec
        simp only [Option.none_bind] at hspec
        cases hb : packField t v <;> simp [← hspec]
      | some vs =>
        have hspec := ih p
        rw [hr] at hspec
        simp only [Option.some_bind] at hspec
        rw [← hspec]
        rfl

/-- Claim C1 (amended): for every ParameterSet containing all 18 required
fields, the encoding step of `send_params_to_pacemaker` packs the 18 fields in
exactly the fixed declared order (it coincides with the field-by-field
spec-side encoder over the declared name list), and the resulting byte string
is exactly 34 bytes long. -/
theorem c1_params_encoding_order_and_length (p : Params) :
    encodeParameterWrite p = encodeParameterWriteSpec p ∧
    ∀ bs : List Nat, encodeParameterWrite p = some bs → bs.length = 34 := by
  constructor
  · have h := getParams_packValues_eq_specEncode specFields p
    have horder : PARAMS_ORDER = specFields.map Prod.fst := by rfl
    have hfmt : PARAMS_FMT = specFields.map Prod.snd := by rfl
    simp only [encodeParameterWrite, encodeParameterWriteSpec, horder, hfmt]
    exact h
  · intro bs h
    simp only [encodeParameterWrite] at h
    cases hg : getParams PARAMS_ORDER p with
    | none => rw [hg] at h; simp at h
    | some vs =>
      rw [hg] at h
      simp only [Option.some_bind] at h
      have := packValues_length h
      rw [this]
      rfl

/-- A concrete ParameterSet with all 18 required fields (amplitudes and
sensitivities carry IEEE-754 single bit patterns: 5.0 = 0x40A00000,
0.5 = 0x3F000000). -/
def exampleParams : Params :=
  [("Pacing Mode", .int 1), ("Lower Rate Limit", .int 60),
   ("Upper Rate Limit", .int 120), ("Atrial Amplitude", .float 0x40A00000),
   ("Atrial Pulse Width", .int 1), ("Atrial Sensitivity", .float 0x3F000000),
   ("Ventricular Amplitude", .float 0x40A00000), ("Ventricular Pulse Width", .int 1),
   ("Ventricular Sensitivity", .float 0x3F000000), ("VRP", .int 320),
   ("ARP", .int 250), ("PVARP", .int 250), ("Fixed AV Delay", .int 150),
   ("Maximum Sensor Rate", .int 120), ("Reaction Time", .int 30),
   ("Response Factor", .int 8), ("Recovery Time", .int 5),
   ("Activity Threshold", .int 4)]

/-- The wire bytes of `exampleParams` (cross-checked against CPython's
`struct.pack("=3BfB2fBf4H5B", ...)`). -/
def exampleBytes : List Nat :=
  [1, 60, 120, 0, 0, 160, 64, 1, 0, 0, 0, 63, 0, 0, 160, 64, 1, 0, 0, 0, 63,
   64, 1, 250, 0, 250, 0, 150, 0, 120, 30, 8, 5, 4]

/-- Witness for claim C1's amended theorem at the concrete `exampleParams`. -/
theorem c1_params_encoding_witness :
    encodeParameterWrite exampleParams = encodeParameterWriteSpec exampleParams ∧
    exampleBytes.length = 34 :=
  ⟨(c1_params_encoding_order_and_length exampleParams).1,
   (c1_params_encoding_order_and_length exampleParams).2 exampleBytes (by decide)⟩

/-- Counterexample for claim C1 as stated: the encoding of a full ParameterSet
is 34 bytes, not 33 (`calcsize("=3BfB2fBf4H5B") = 34`). -/
theorem c1_counterexample_length_not_33 :
    encodeParameterWrite exampleParams = some exampleBytes ∧
    exampleBytes.length ≠ 33 := by
  constructor
  · decide
  · decide

/-- The mutable `_SerialHandler` state relevant to the modelled operations:
`_conn.port`, the reassembly buffer `_buf`, `_sent_data`, `_send_params`. -/
structure SerialState where
  port : Option String
  buf : List Nat
  sentData : List Nat
  sendParams : Bool
deriving DecidableEq, Repr

/-- The two Qt signals of `_SerialHandler`; ECG payloads carry the ten
decoded 32-bit float words per channel (bit patterns, see the file header). -/
inductive SEvent where
  | ecgDataUpdate (a v : List Nat)
  | paramsReceived (ok : Bool) (msg : String)
deriving DecidableEq, Repr

/-- The `_SerialHandler.__init__`: no port, empty buffer, `_sent_data = bytes()`,
`_send_params = False`. -/
def serialHandlerInit : SerialState :=
  { port := none, buf := [], sentData := [], sendParams := false }

/-- The `_SerialHandler._verify_params`: compares `_sent_data` against the first
`_PARAMS_NUM_BYTES` bytes of the received payload and yields the
`params_received` emission (success flag, message). -/
def verify_params (sent received : List Nat) : Bool × String :=
  if sent ≠ received.take PARAMS_NUM_BYTES then
    (false, "The received parameters were not the same as the sent ones!\nPlease restart the DCM/Pacemaker or try a different Pacemaker!")
  else
    (true, "Successfully sent parameters!")

/-- The control-byte dispatch of `_SerialHandler.run` (lines 82 to 96): split
the frame into `line[0]` and `line[1:]`; control byte 0 unpacks ten floats at
offset 0 and ten at offset `_ECG_DATA` and emits `ecg_data_update`; control
byte 1 runs `_verify_params`; anything else falls through silently.  An empty
line (impossible after a successful `_readline`) or a payload too short for
`unpack_from` raises inside the try-block, which swallows the exception: no
event, no state change. -/
def dispatch (s : SerialState) (line : List Nat) : SerialState × List SEvent :=
  match line with
  | [] => (s, [])
  | c :: rest =>
    if c = 0 then
      if 2 * ECG_DATA ≤ rest.length then
        (s, [.ecgDataUpdate (words4 (rest.take ECG_DATA))
                            (words4 ((rest.drop ECG_DATA).take ECG_DATA))])
      else (s, [])
    else if c = 1 then
      (s, [.paramsReceived (verify_params s.sentData rest).1
                           (verify_params s.sentData rest).2])
    else (s, [])

/-- The while-loop of `_SerialHandler._readline` (lines 113 to 122), driven by
the sequence of chunks the non-blocking `self._conn.read` returns: each
iteration reads one chunk, then if the buffer already holds a full frame it
returns the oldest `num_bytes_to_read` bytes and appends the fresh chunk to
the remainder; otherwise it extends the buffer.  Once the chunk sequence is
exhausted, `read` yields empty data forever: the loop either returns a full
frame from the buffer or never returns (`none`). -/
def readlineLoop (buf : List Nat) (chunks : List (List Nat)) :
    Option (List Nat × List Nat × List (List Nat)) :=
  match chunks with
  | [] =>
    if num_bytes_to_read ≤ buf.length then
      some (buf.take num_bytes_to_read, buf.drop num_bytes_to_read, [])
    else none
  | d :: rest =>
    if num_bytes_to_read ≤ buf.length then
      some (buf.take num_bytes_to_read, buf.drop num_bytes_to_read ++ d, rest)
    else readlineLoop (buf ++ d) rest

/-- The `_SerialHandler._readline`: if the buffer already holds a full frame,
pop and return it without reading; otherwise enter the read loop.  Returns
the frame, the new buffer and the unconsumed chunk suffix. -/
def readline (buf : List Nat) (chunks : List (List Nat)) :
    Option (List Nat × List Nat × List (List Nat)) :=
  if num_bytes_to_read ≤ buf.length then
    some (buf.take num_bytes_to_read, buf.drop num_bytes_to_read, chunks)
  else readlineLoop buf chunks

/-- Iterated `_readline`: the frames yielded by `n` successive loop
iterations over one incoming chunk sequence. -/
def readFrames : Nat → List Nat → List (List Nat) → List (List Nat)
  | 0, _, _ => []
  | n + 1, buf, chunks =>
    match readline buf chunks with
    | none => []
    | some (fr, b, c) => fr :: readFrames n b c

/-- One iteration of the `_SerialHandler.run` loop body with the port open:
the write phase (which clears `_send_params` whether or not a parameter write
was pending, writing either `_sent_data` or `_REQUEST_ECG` to the wire), then
`_readline`, then the control-byte dispatch.  `none` models an iteration that
never completes (no full frame ever arrives). -/
def run_iter (s : SerialState) (chunks : List (List Nat)) :
    Option (SerialState × List SEvent × List (List Nat)) :=
  let s0 := { s with sendParams := false }
  match readline s0.buf chunks with
  | none => none
  | some (line, buf2, chunks2) =>
    let r := dispatch { s0 with buf := buf2 } line
    some (r.1, r.2, chunks2)

/-- The `_SerialHandler.start_serial_comm`: clear the reassembly buffer, then set
the connection's port to whatever `self._device.device` holds (an
`Optional[str]`). -/
def start_serial_comm (s : SerialState) (port : Option String) : SerialState :=
  { s with buf := [], port := port }

/-- The `_SerialHandler.stop_serial_comm`: close the connection and clear the
port. -/
def stop_serial_comm (s : SerialState) : SerialState :=
  { s with port := none }

/-- The `_SerialHandler.send_params_to_pacemaker`: encode the dict, store it as
`_sent_data` and raise the `_send_params` flag; a missing field propagates
the exception (`none`). -/
def send_params_to_pacemaker (s : SerialState) (p : Params) : Option SerialState :=
  (encodeParameterWrite p).map fun bs => { s with sentData := bs, sendParams := true }

/-- An echoed payload whose first 34 bytes match `exampleBytes` and which has
the full 80-byte ECG-frame payload length. -/
def echoedExample : List Nat := exampleBytes ++ List.replicate 46 0

/-- Counterexample for claim C2 as stated: verification compares the first 34
bytes of the echo (`_PARAMS_NUM_BYTES = 34`), not the first 33; here the code
reports success although the first 33 echoed bytes are not identical to the
34 sent bytes. -/
theorem c2_counterexample_not_33 :
    (verify_params exampleBytes echoedExample).1 = true ∧
    echoedExample.take 33 ≠ exampleBytes := by
  constructor
  · decide
  · decide

/-- Claim C2 (amended): the parameter-verification comparison reports success
if and only if the first 34 bytes of the echoed payload are byte-for-byte
identical to the sent bytes, and the verification event carries exactly that
boolean. -/
theorem c2_verify_params_iff (sent received : List Nat) (s : SerialState)
    (rest : List Nat) :
    ((verify_params sent received).1 = true ↔
      received.take PARAMS_NUM_BYTES = sent) ∧
    dispatch s (1 :: rest) =
      (s, [.paramsReceived (verify_params s.sentData rest).1
                           (verify_params s.sentData rest).2]) := by
  constructor
  · unfold verify_params
    split
    · next hne =>
      simp only [Bool.false_eq_true, false_iff]
      exact fun he => hne he.symm
    · next heq =>
      simp only [ne_eq, not_not] at heq
      simp [heq.symm]
  · rfl

theorem words4_le32_flatten : ∀ ws : List Nat, (∀ w ∈ ws, w < 4294967296) →
    words4 ((ws.map le32).flatten) = ws := by
  intro ws
  induction ws with
  | nil => intro _; rfl
  | cons w rest ih =>
    intro hb
    have hw : w < 4294967296 := hb w (by simp)
    have hstep : words4 (((w :: rest).map le32).flatten) =
        (w % 256 + 256 * (w / 256 % 256) + 65536 * (w / 65536 % 256) +
          16777216 * (w / 16777216 % 256)) :: words4 ((rest.map le32).flatten) := rfl
    rw [hstep, ih fun x hx => hb x (by simp [hx])]
    congr 1
    omega

theorem length_le32_flatten : ∀ ws : List Nat,
    ((ws.map le32).flatten).length = 4 * ws.length := by
  intro ws
  induction ws with
  | nil => rfl
  | cons w rest ih =>
    simp only [List.map_cons, List.flatten_cons, List.length_append, ih,
      List.length_cons, le32, List.length_cons]
    simp [le32]
    omega

/-- Claim C8: an inbound frame with control byte 0 is decoded as 20 packed
32-bit float values; the `ecg_data_update` event carries the first 10 as the
atrial sequence and the last 10 as the ventricular sequence, each of
length 10.  Float values are embedded by their bit patterns. -/
theorem c8_ecg_split (s : SerialState) (ws : List Nat)
    (hlen : ws.length = 20) (hbound : ∀ w ∈ ws, w < 4294967296) :
    dispatch s (0 :: (ws.map le32).flatten) =
      (s, [.ecgDataUpdate (ws.take 10) (ws.drop 10)]) ∧
    (ws.take 10).length = 10 ∧ (ws.drop 10).length = 10 := by
  have hA : (((ws.take 10).map le32).flatten).length = 40 := by
    rw [length_le32_flatten, List.length_take, hlen]
    omega
  have hB : (((ws.drop 10).map le32).flatten).length = 40 := by
    rw [length_le32_flatten, List.length_drop, hlen]
  have hsplit : (ws.map le32).flatten =
      ((ws.take 10).map le32).flatten ++ ((ws.drop 10).map le32).flatten := by
    rw [← List.flatten_append, ← List.map_append, List.take_append_drop]
  have hplen : ((ws.map le32).flatten).length = 80 := by
    rw [length_le32_flatten, hlen]
  have hED : ECG_DATA = 40 := rfl
  have htk : ((ws.map le32).flatten).take ECG_DATA =
      ((ws.take 10).map le32).flatten := by
    rw [hED, hsplit, List.take_append_of_le_length hA.ge,
      List.take_of_length_le hA.le]
  have hdr : ((ws.map le32).flatten).drop ECG_DATA =
      ((ws.drop 10).map le32).flatten := by
    rw [hED, hsplit, List.drop_append_of_le_length hA.ge,
      List.drop_of_length_le hA.le, List.nil_append]
  have hzero : dispatch s (0 :: (ws.map le32).flatten) =
      if 2 * ECG_DATA ≤ ((ws.map le32).flatten).length then
        (s, [.ecgDataUpdate (words4 (((ws.map le32).flatten).take ECG_DATA))
              (words4 ((((ws.map le32).flatten).drop ECG_DATA).take ECG_DATA))])
      else (s, []) := rfl
  refine ⟨?_, ?_, ?_⟩
  · rw [hzero, if_pos (by rw [hplen]; decide), htk, hdr]
    have hBt : (((ws.drop 10).map le32).flatten).take ECG_DATA =
        ((ws.drop 10).map le32).flatten := by
      rw [hED]
      exact List.take_of_length_le hB.le
    rw [hBt]
    rw [words4_le32_flatten (ws.take 10) fun x hx => hbound x (List.mem_of_mem_take hx),
      words4_le32_flatten (ws.drop 10) fun x hx => hbound x (List.mem_of_mem_drop hx)]
  · rw [List.length_take, hlen]
    omega
  · rw [List.length_drop, hlen]

/-- The IEEE-754 single bit patterns of 0.1, 0.2, ..., 1.0 (atrial) followed
by 1.1, 1.2, ..., 2.0 (ventricular), cross-checked against CPython's
`struct.pack("<f", x)`. -/
def ecgWords : List Nat :=
  [0x3DCCCCCD, 0x3E4CCCCD, 0x3E99999A, 0x3ECCCCCD, 0x3F000000,
   0x3F19999A, 0x3F333333, 0x3F4CCCCD, 0x3F666666, 0x3F800000,
   0x3F8CCCCD, 0x3F99999A, 0x3FA66666, 0x3FB33333, 0x3FC00000,
   0x3FCCCCCD, 0x3FD9999A, 0x3FE66666, 0x3FF33333, 0x40000000]

/-- Witness for claim C8: the payload encoding atrial = (0.1,...,1.0) and
ventricular = (1.1,...,2.0) yields exactly those two sequences, each of
length 10. -/
theorem c8_ecg_split_witness :
    ecgWords.length = 20 ∧ (∀ w ∈ ecgWords, w < 4294967296) ∧
    dispatch serialHandlerInit (0 :: (ecgWords.map le32).flatten) =
      (serialHandlerInit,
        [.ecgDataUpdate (ecgWords.take 10) (ecgWords.drop 10)]) ∧
    (ecgWords.take 10).length = 10 ∧ (ecgWords.drop 10).length = 10 :=
  ⟨by decide, by decide,
   (c8_ecg_split serialHandlerInit ecgWords (by decide) (by decide)).1,
   (c8_ecg_split serialHandlerInit ecgWords (by decide) (by decide)).2.1,
   (c8_ecg_split serialHandlerInit ecgWords (by decide) (by decide)).2.2⟩

/-- Claim C9: a parameter-echo frame (control byte 1) processed while
`_sent_data` still holds its initial empty value makes `_verify_params` emit
`params_received` with success = false: the empty sent bytes never equal the
non-empty truncated echo payload. -/
theorem c9_echo_before_any_write (s : SerialState) (rest : List Nat)
    (hsent : s.sentData = serialHandlerInit.sentData) (hne : rest ≠ []) :
    dispatch s (1 :: rest) =
      (s, [.paramsReceived false
        "The received parameters were not the same as the sent ones!\nPlease restart the DCM/Pacemaker or try a different Pacemaker!"]) := by
  have hone : dispatch s (1 :: rest) =
      (s, [.paramsReceived (verify_params s.sentData rest).1
                           (verify_params s.sentData rest).2]) := rfl
  have hinit : serialHandlerInit.sentData = ([] : List Nat) := rfl
  rw [hone, hsent, hinit]
  have hne2 : ([] : List Nat) ≠ rest.take PARAMS_NUM_BYTES := by
    intro h
    rcases List.take_eq_nil_iff.mp h.symm with h0 | h0
    · have : PARAMS_NUM_BYTES ≠ 0 := by decide
      exact this h0
    · exact hne h0
  unfold verify_params
  rw [if_pos hne2]

/-- Witness for claim C9 at the initial transport state and an all-zero
80-byte echo payload. -/
theorem c9_echo_before_any_write_witness :
    serialHandlerInit.sentData = serialHandlerInit.sentData ∧
    List.replicate 80 0 ≠ ([] : List Nat) ∧
    dispatch serialHandlerInit (1 :: List.replicate 80 0) =
      (serialHandlerInit, [.paramsReceived false
        "The received parameters were not the same as the sent ones!\nPlease restart the DCM/Pacemaker or try a different Pacemaker!"]) :=
  ⟨rfl, by decide,
   c9_echo_before_any_write serialHandlerInit (List.replicate 80 0) rfl (by decide)⟩

/-- Claim C10: a frame whose control byte is neither 0 nor 1 is consumed
silently: the dispatch emits no event and changes no transport state, and a
full loop iteration that reads such a frame only advances the reassembly
buffer past the frame's bytes (the write phase having cleared the
pending-write flag as it does on every iteration). -/
theorem c10_other_control_silent (s : SerialState) (c : Nat) (rest : List Nat)
    (h0 : c ≠ 0) (h1 : c ≠ 1) :
    dispatch s (c :: rest) = (s, []) ∧
    (∀ chunks line buf2 chunks2,
      readline s.buf chunks = some (line, buf2, chunks2) →
      line = c :: rest →
      run_iter s chunks =
        some ({ s with sendParams := false, buf := buf2 }, [], chunks2)) := by
  have hd : ∀ t : SerialState, dispatch t (c :: rest) = (t, []) := by
    intro t
    simp only [dispatch]
    rw [if_neg h0, if_neg h1]
  refine ⟨hd s, ?_⟩
  intro chunks line buf2 chunks2 hread hline
  subst hline
  simp only [run_iter, hread]
  rw [hd]

/-- Witness for claim C10 at a concrete frame with control byte 2 arriving
in one chunk. -/
theorem c10_other_control_silent_witness :
    (2 : Nat) ≠ 0 ∧ (2 : Nat) ≠ 1 ∧
    readline serialHandlerInit.buf [2 :: List.replicate 80 0] =
      some (2 :: List.replicate 80 0, [], []) ∧
    dispatch serialHandlerInit (2 :: List.replicate 80 0) = (serialHandlerInit, []) ∧
    run_iter serialHandlerInit [2 :: List.replicate 80 0] =
      some ({ serialHandlerInit with sendParams := false, buf := [] }, [], []) :=
  ⟨by decide, by decide, by decide,
   (c10_other_control_silent serialHandlerInit 2 (List.replicate 80 0)
     (by decide) (by decide)).1,
   (c10_other_control_silent serialHandlerInit 2 (List.replicate 80 0)
     (by decide) (by decide)).2
     [2 :: List.replicate 80 0] (2 :: List.replicate 80 0) [] [] (by decide) rfl⟩

theorem readlineLoop_spec : ∀ (chunks : List (List Nat)) (buf : List Nat),
    num_bytes_to_read ≤ (buf ++ chunks.flatten).length →
    ∃ buf2 chunks2,
      readlineLoop buf chunks =
        some ((buf ++ chunks.flatten).take num_bytes_to_read, buf2, chunks2) ∧
      buf2 ++ chunks2.flatten = (buf ++ chunks.flatten).drop num_bytes_to_read := by
  intro chunks
  induction chunks with
  | nil =>
    intro buf h
    rw [List.flatten_nil, List.append_nil] at h
    refine ⟨buf.drop num_bytes_to_read, [], ?_, ?_⟩
    · rw [readlineLoop, if_pos h, List.flatten_nil, List.append_nil]
    · rw [List.flatten_nil, List.append_nil, List.append_nil]
  | cons d rest ih =>
    intro buf h
    by_cases hle : num_bytes_to_read ≤ buf.length
    · refine ⟨buf.drop num_bytes_to_read ++ d, rest, ?_, ?_⟩
      · rw [readlineLoop, if_pos hle, List.take_append_of_le_length hle]
      · rw [List.flatten_cons, List.drop_append_of_le_length hle,
          List.append_assoc]
    · have h2 : num_bytes_to_read ≤ ((buf ++ d) ++ rest.flatten).length := by
        rw [List.append_assoc, ← List.flatten_cons]
        exact h
      obtain ⟨buf2, chunks2, heq, hinv⟩ := ih (buf ++ d) h2
      refine ⟨buf2, chunks2, ?_, ?_⟩
      · rw [readlineLoop, if_neg hle, heq, List.append_assoc, ← List.flatten_cons]
      · rw [hinv, List.append_assoc, ← List.flatten_cons]

theorem readline_spec (buf : List Nat) (chunks : List (List Nat))
    (h : num_bytes_to_read ≤ (buf ++ chunks.flatten).length) :
    ∃ buf2 chunks2,
      readline buf chunks =
        some ((buf ++ chunks.flatten).take num_bytes_to_read, buf2, chunks2) ∧
      buf2 ++ chunks2.flatten = (buf ++ chunks.flatten).drop num_bytes_to_read := by
  by_cases hle : num_bytes_to_read ≤ buf.length
  · refine ⟨buf.drop num_bytes_to_read, chunks, ?_, ?_⟩
    · rw [readline, if_pos hle, List.take_append_of_le_length hle]
    · rw [List.drop_append_of_le_length hle]
  · rw [readline, if_neg hle]
    exact readlineLoop_spec chunks buf h

theorem readlineLoop_none : ∀ (chunks : List (List Nat)) (buf : List Nat),
    (buf ++ chunks.flatten).length < num_bytes_to_read →
    readlineLoop buf chunks = none := by
  intro chunks
  induction chunks with
  | nil =>
    intro buf h
    rw [List.flatten_nil, List.append_nil] at h
    rw [readlineLoop, if_neg (by omega)]
  | cons d rest ih =>
    intro buf h
    have hlt : buf.length < num_bytes_to_read := by
      rw [List.length_append] at h
      omega
    rw [readlineLoop, if_neg (by omega)]
    apply ih
    rw [List.append_assoc, ← List.flatten_cons]
    exact h

theorem readline_none (buf : List Nat) (chunks : List (List Nat))
    (h : (buf ++ chunks.flatten).length < num_bytes_to_read) :
    readline buf chunks = none := by
  have hlt : buf.length < num_bytes_to_read := by
    rw [List.length_append] at h
    omega
  rw [readline, if_neg (by omega)]
  exact readlineLoop_none chunks buf h

theorem readFrames_exact :
    ∀ (frames : List (List Nat)) (buf : List Nat) (chunks : List (List Nat)) (k : Nat),
    (∀ fr ∈ frames, fr.length = num_bytes_to_read) →
    buf ++ chunks.flatten = frames.flatten →
    readFrames (frames.length + k) buf chunks = frames := by
  intro frames
  induction frames with
  | nil =>
    intro buf chunks k _ hstream
    have hnone : readline buf chunks = none := by
      apply readline_none
      rw [hstream]
      decide
    cases k with
    | zero => rfl
    | succ k2 =>
      have hz : ([] : List (List Nat)).length + (k2 + 1) = k2 + 1 := by
        simp
      rw [hz, readFrames, hnone]
  | cons fr frames ih =>
    intro buf chunks k hlen hstream
    have hfr : fr.length = num_bytes_to_read := hlen fr (by simp)
    have hstream2 : buf ++ chunks.flatten = fr ++ frames.flatten := by
      rw [hstream, List.flatten_cons]
    have hge : num_bytes_to_read ≤ (buf ++ chunks.flatten).length := by
      rw [hstream2, List.length_append, hfr]
      omega
    obtain ⟨buf2, chunks2, heq, hinv⟩ := readline_spec buf chunks hge
    have htake : (buf ++ chunks.flatten).take num_bytes_to_read = fr := by
      rw [hstream2, ← hfr, List.take_left]
    have hdrop : (buf ++ chunks.flatten).drop num_bytes_to_read = frames.flatten := by
      rw [hstream2, ← hfr, List.drop_left]
    have hfuel : (fr :: frames).length + k = (frames.length + k) + 1 := by
      rw [List.length_cons]
      omega
    rw [hfuel]
    simp only [readFrames, heq]
    rw [htake, ih buf2 chunks2 k (fun g hg => hlen g (by simp [hg])) (hinv.trans hdrop)]

/-- Claim C3: over a byte stream equal to the concatenation of N frames of the
fixed size `num_bytes_to_read`, the `_readline` reassembly yields exactly
those N frames whatever the chunk boundaries of the incoming reads (one byte
at a time, several frames at once, ...), identically to feeding the stream as
N discrete frame-sized reads; bytes read beyond one frame's worth are carried
over in order, never discarded and never reordered (extra loop iterations
beyond the N frames yield nothing more). -/
theorem c3_reassembly_chunk_invariant (frames chunks : List (List Nat)) (k : Nat)
    (hlen : ∀ fr ∈ frames, fr.length = num_bytes_to_read)
    (hpart : chunks.flatten = frames.flatten) :
    readFrames (frames.length + k) [] chunks = frames ∧
    readFrames (frames.length + k) [] frames = frames :=
  ⟨readFrames_exact frames [] chunks k hlen (by rw [List.nil_append, hpart]),
   readFrames_exact frames [] frames k hlen (by rw [List.nil_append])⟩

/-- Witness for claim C3: two 81-byte frames delivered with misaligned chunk
boundaries (one read of 84 bytes, one read of 78 bytes) are reassembled into
exactly the two frames, with one spare loop iteration yielding nothing more. -/
theorem c3_reassembly_witness :
    (∀ fr ∈ [List.replicate 81 5, List.replicate 81 9],
      fr.length = num_bytes_to_read) ∧
    ([List.replicate 81 5 ++ List.replicate 3 9, List.replicate 78 9].flatten =
      [List.replicate 81 5, List.replicate 81 9].flatten) ∧
    readFrames ([List.replicate 81 5, List.replicate 81 9].length + 1) []
        [List.replicate 81 5 ++ List.replicate 3 9, List.replicate 78 9] =
      [List.replicate 81 5, List.replicate 81 9] :=
  ⟨by decide, by decide,
   (c3_reassembly_chunk_invariant [List.replicate 81 5, List.replicate 81 9]
     [List.replicate 81 5 ++ List.replicate 3 9, List.replicate 78 9] 1
     (by decide) (by decide)).1⟩

/-- The fields of `serial.tools.list_ports_common.ListPortInfo` the code
reads: `device` (the port path), `serial_number`, `vid`, `pid`; all are
`None`-able. -/
structure LPI where
  device : Option String
  serial_number : Option String
  vid : Option Nat
  pid : Option Nat
deriving DecidableEq, Repr

/-- What `ConnectionHandler._device` may hold: the bare list returned by
`comports()` that `__init__` stores there, or a `ListPortInfo` record. -/
inductive DeviceSlot where
  | initList (l : List LPI)
  | lpi (d : LPI)
deriving DecidableEq, Repr

/-- A freshly constructed `ListPortInfo()` as `_handle_removed_device`
creates: every attribute `None`. -/
def blankLPI : LPI :=
  { device := none, serial_number := none, vid := none, pid := none }

/-- The `connect_status_change` signal: a state and the str payload (the
serial number, possibly `None`, or a formatted message wrapped in `some`). -/
inductive CEvent where
  | connectStatusChange (st : PacemakerState) (info : Option String)
deriving DecidableEq, Repr

/-- Python str interpolation of an `Optional[str]` in an f-string. -/
def pyStr : Option String → String
  | none => "None"
  | some s => s

/-- The mutable `ConnectionHandler` state (together with its owned
`_SerialHandler`). -/
structure ConnHState where
  device : DeviceSlot
  devices : List LPI
  oldDevices : List LPI
  firstSerial : Option String
  currentState : PacemakerState
  prevState : PacemakerState
  wantedState : PacemakerState
  serial : SerialState
deriving DecidableEq, Repr

/-- The `ConnectionHandler._filter_devices`: keep devices with Vendor ID 0x1366
and Product ID 0x1015. -/
def filter_devices (data : List LPI) : List LPI :=
  data.filter fun d => d.vid == some 0x1366 && d.pid == some 0x1015

/-- Python `dev in list-of-ListPortInfo`: membership via `ListPortInfo.__eq__`,
which compares the `device` attribute (the port path). -/
def lpiMem (d : LPI) (l : List LPI) : Bool :=
  l.any fun e => e.device == d.device

/-- Reading `.serial_number` off the `_device` slot; `none` is the
`AttributeError` raised when the slot still holds the `comports()` list. -/
def slotSerial : DeviceSlot → Option (Option String)
  | .initList _ => none
  | .lpi d => some d.serial_number

/-- Reading `.device` off the `_device` slot (same `AttributeError` caveat). -/
def slotPort : DeviceSlot → Option (Option String)
  | .initList _ => none
  | .lpi d => some d.device

/-- The `ConnectionHandler.__init__` (its `_SerialHandler` freshly initialized);
`comportsAtInit` is the `comports()` list stored into `_device`. -/
def connHandlerInit (comportsAtInit : List LPI) : ConnHState :=
  { device := .initList comportsAtInit,
    devices := [], oldDevices := [],
    firstSerial := some "",
    currentState := .NOT_CONNECTED, prevState := .NOT_CONNECTED,
    wantedState := .NOT_CONNECTED,
    serial := serialHandlerInit }

/-- The `ConnectionHandler._handle_removed_device`: if any removed device's
serial number equals the current device's, request NOT_CONNECTED, emit the
NOT_CONNECTED event with `removed[0].serial_number`, clear `_device` to a
fresh `ListPortInfo()` and stop serial communication.  With `removed` empty
the `any(...)` generator never touches `_device`, so no attribute access
happens. -/
def handle_removed_device (s : ConnHState) (removed : List LPI) :
    Except String (ConnHState × List CEvent) :=
  match removed with
  | [] => .ok (s, [])
  | r0 :: _ =>
    match slotSerial s.device with
    | none => .error "AttributeError"
    | some sr =>
      if removed.any fun d => sr == d.serial_number then
        .ok ({ s with wantedState := .NOT_CONNECTED,
                      device := .lpi blankLPI,
                      serial := stop_serial_comm s.serial },
             [.connectStatusChange .NOT_CONNECTED r0.serial_number])
      else .ok (s, [])

/-- Lines 261 to 263 of handlers.py: save the scan and the state as previous
for the next tick's diff. -/
def finalizeTick (s : ConnHState) : ConnHState :=
  { s with oldDevices := s.devices, prevState := s.currentState }

/-- The per-state transition logic of `ConnectionHandler._update_state`
after the scan diff and the desired-state alignment have run (the argument
`s0` already carries the new `devices` list and the aligned current state). -/
def stepBranches (s0 : ConnHState) (added removed : List LPI) :
    Except String (ConnHState × List CEvent) :=
  if s0.currentState = .NOT_CONNECTED then
    match added with
    | [] => .ok (finalizeTick s0, [])
    | d :: _ =>
      if s0.firstSerial = some "" then
        .ok (finalizeTick { s0 with device := .lpi d,
                                    firstSerial := d.serial_number,
                                    wantedState := .REGISTERED }, [])
      else if s0.firstSerial = d.serial_number then
        .ok (finalizeTick { s0 with device := .lpi d,
                                    wantedState := .REGISTERED }, [])
      else
        .ok (finalizeTick { s0 with device := .lpi d,
                                    wantedState := .CONNECTED }, [])
  else if s0.currentState = .CONNECTED then
    match (if s0.prevState = .NOT_CONNECTED then
             (slotSerial s0.device).map fun sr =>
               [CEvent.connectStatusChange .CONNECTED
                 (some (pyStr sr ++ ", press New Patient to register"))]
           else some []) with
    | none => .error "AttributeError"
    | some evs1 =>
      match handle_removed_device s0 removed with
      | .ok (s1, evs2) => .ok (finalizeTick s1, evs1 ++ evs2)
      | .error e => .error e
  else
    if s0.prevState = .NOT_CONNECTED ∨ s0.prevState = .CONNECTED then
      match slotPort s0.device, slotSerial s0.device with
      | some pt, some sr =>
        let s1 := { s0 with serial := start_serial_comm s0.serial pt }
        match handle_removed_device s1 removed with
        | .ok (s2, evs2) =>
          .ok (finalizeTick s2, .connectStatusChange .REGISTERED sr :: evs2)
        | .error e => .error e
      | _, _ => .error "AttributeError"
    else
      match handle_removed_device s0 removed with
      | .ok (s1, evs2) => .ok (finalizeTick s1, evs2)
      | .error e => .error e

/-- The `ConnectionHandler._update_state` for one tick, driven by the raw
`comports()` scan: filter to eligible devices, diff against the previous
scan (`added`, `removed`, membership by port path per
`ListPortInfo.__eq__`), align the current state with the wanted state, run
the per-state branch, then save the previous-cycle variables. -/
def update_state (s : ConnHState) (scan : List LPI) :
    Except String (ConnHState × List CEvent) :=
  stepBranches
    { s with devices := filter_devices scan,
             currentState :=
               if s.currentState ≠ s.wantedState then s.wantedState
               else s.currentState }
    ((filter_devices scan).filter fun d => !(lpiMem d s.oldDevices))
    (s.oldDevices.filter fun d => !(lpiMem d (filter_devices scan)))

/-- Outcome of `ConnectionHandler.register_device`: a requested transition,
a `QMessageBox` notice, or an uncaught `AttributeError`. -/
inductive RegNotice where
  | requestRegistered
  | alert (msg : String)
  | attrError
deriving DecidableEq, Repr

/-- Python truthiness of an `Optional[str]`. -/
def truthy : Option String → Bool
  | none => false
  | some st => st != ""

/-- The `ConnectionHandler.register_device` (the New Patient button). -/
def register_device (s : ConnHState) : ConnHState × RegNotice :=
  if s.currentState = .CONNECTED then
    ({ s with wantedState := .REGISTERED }, .requestRegistered)
  else
    match s.device with
    | .initList _ => (s, .attrError)
    | .lpi d =>
      if truthy d.serial_number then
        (s, .alert "Already registered this pacemaker!")
      else if 0 < s.devices.length then
        (s, .alert "Please unplug and replug the pacemaker you want to connect to!")
      else
        (s, .alert "Please plug in a pacemaker!")

/-- The `ConnectionHandler.send_data_to_pacemaker` (the Pace Now button):
forwards straight to `_SerialHandler.send_params_to_pacemaker`; the
state-gating branch in the source is commented out. -/
def send_data_to_pacemaker (s : ConnHState) (p : Params) : Option ConnHState :=
  (send_params_to_pacemaker s.serial p).map fun se => { s with serial := se }

theorem stepBranches_not_connected (s0 : ConnHState) (added removed : List LPI)
    (h : s0.currentState = .NOT_CONNECTED) :
    ∃ s2 evs, stepBranches s0 added removed = .ok (s2, evs) ∧
      s2.currentState = .NOT_CONNECTED := by
  simp only [stepBranches, h, if_pos]
  cases added with
  | nil => exact ⟨_, _, rfl, by simp [finalizeTick, h]⟩
  | cons d tl =>
    by_cases h1 : s0.firstSerial = some ""
    · refine ⟨finalizeTick { s0 with device := .lpi d, firstSerial := d.serial_number, wantedState := .REGISTERED }, [],
        ?_, by simp [finalizeTick, h]⟩
      simp [h1, h]
    · by_cases h2 : s0.firstSerial = d.serial_number
      · refine ⟨finalizeTick { s0 with device := .lpi d, wantedState := .REGISTERED }, [],
          ?_, by simp [finalizeTick, h]⟩
        simp [h1, h2, h]
      · refine ⟨finalizeTick { s0 with device := .lpi d, wantedState := .CONNECTED }, [],
          ?_, by simp [finalizeTick, h]⟩
        simp [h1, h2, h]

theorem update_state_to_not_connected (s : ConnHState) (scan : List LPI)
    (hwant : s.wantedState = .NOT_CONNECTED) :
    ∃ s2 evs, update_state s scan = .ok (s2, evs) ∧
      s2.currentState = .NOT_CONNECTED := by
  have hc : (if s.currentState ≠ s.wantedState then s.wantedState
             else s.currentState) = .NOT_CONNECTED := by
    by_cases h : s.currentState ≠ s.wantedState
    · rw [if_pos h, hwant]
    · rw [if_neg h]
      rw [not_ne_iff] at h
      rw [h, hwant]
  exact stepBranches_not_connected _ _ _ (by simp [hc])

/-- Claim C4: a discovery tick in NOT_CONNECTED whose diff yields a non-empty
added list adopts the first added device as `_device`; if `_first_serial_num`
is still unset ("") it records that device's serial number and requests
REGISTERED; else if the device's serial number equals `_first_serial_num`
(the remembered device replugged) it requests REGISTERED without any
registration call; otherwise it requests CONNECTED. -/
theorem c4_not_connected_adopts_first_added (s : ConnHState) (scan : List LPI)
    (d : LPI) (tl : List LPI)
    (hcur : s.currentState = .NOT_CONNECTED)
    (hwant : s.wantedState = .NOT_CONNECTED)
    (hadd : (filter_devices scan).filter (fun x => !(lpiMem x s.oldDevices)) = d :: tl) :
    ∃ s2 evs, update_state s scan = .ok (s2, evs) ∧
      s2.device = .lpi d ∧ evs = [] ∧ s2.currentState = .NOT_CONNECTED ∧
      (s.firstSerial = some "" →
        s2.firstSerial = d.serial_number ∧ s2.wantedState = .REGISTERED) ∧
      (s.firstSerial ≠ some "" → s.firstSerial = d.serial_number →
        s2.wantedState = .REGISTERED ∧ s2.firstSerial = s.firstSerial) ∧
      (s.firstSerial ≠ some "" → s.firstSerial ≠ d.serial_number →
        s2.wantedState = .CONNECTED ∧ s2.firstSerial = s.firstSerial) := by
  by_cases h1 : s.firstSerial = some ""
  · refine ⟨finalizeTick { s with devices := filter_devices scan, currentState := .NOT_CONNECTED, device := .lpi d, firstSerial := d.serial_number, wantedState := .REGISTERED }, [],
      ?_, by simp [finalizeTick], rfl, by simp [finalizeTick],
      fun _ => ⟨by simp [finalizeTick], by simp [finalizeTick]⟩,
      fun hn => absurd h1 hn, fun hn => absurd h1 hn⟩
    simp [update_state, stepBranches, hadd, hcur, hwant, h1, finalizeTick]
  · by_cases h2 : s.firstSerial = d.serial_number
    · refine ⟨finalizeTick { s with devices := filter_devices scan, currentState := .NOT_CONNECTED, device := .lpi d, wantedState := .REGISTERED }, [],
        ?_, by simp [finalizeTick], rfl, by simp [finalizeTick],
        fun h1x => absurd h1x h1,
        fun _ _ => ⟨by simp [finalizeTick], by simp [finalizeTick]⟩,
        fun _ h2x => absurd h2 h2x⟩
      simp [update_state, stepBranches, hadd, hcur, hwant, h1, h2, finalizeTick]
    · refine ⟨finalizeTick { s with devices := filter_devices scan, currentState := .NOT_CONNECTED, device := .lpi d, wantedState := .CONNECTED }, [],
        ?_, by simp [finalizeTick], rfl, by simp [finalizeTick],
        fun h1x => absurd h1x h1,
        fun _ h2x => absurd h2x h2,
        fun _ _ => ⟨by simp [finalizeTick], by simp [finalizeTick]⟩⟩
      simp [update_state, stepBranches, hadd, hcur, hwant, h1, h2, finalizeTick]

/-- An eligible pacemaker device on port COM3. -/
def deviceA : LPI :=
  { device := some "COM3", serial_number := some "SN-A",
    vid := some 0x1366, pid := some 0x1015 }

/-- A second, distinct eligible pacemaker device on port COM4. -/
def deviceB : LPI :=
  { device := some "COM4", serial_number := some "SN-B",
    vid := some 0x1366, pid := some 0x1015 }

/-- Witness for claim C4: the very first eligible device appearing after
construction is adopted and auto-registered. -/
theorem c4_not_connected_adopts_witness :
    (connHandlerInit []).currentState = .NOT_CONNECTED ∧
    (connHandlerInit []).wantedState = .NOT_CONNECTED ∧
    (filter_devices [deviceA]).filter
      (fun x => !(lpiMem x (connHandlerInit []).oldDevices)) = deviceA :: [] ∧
    (∃ s2 evs, update_state (connHandlerInit []) [deviceA] = .ok (s2, evs) ∧
      s2.device = .lpi deviceA ∧ evs = [] ∧ s2.currentState = .NOT_CONNECTED ∧
      ((connHandlerInit []).firstSerial = some "" →
        s2.firstSerial = deviceA.serial_number ∧ s2.wantedState = .REGISTERED) ∧
      ((connHandlerInit []).firstSerial ≠ some "" →
        (connHandlerInit []).firstSerial = deviceA.serial_number →
        s2.wantedState = .REGISTERED ∧
        s2.firstSerial = (connHandlerInit []).firstSerial) ∧
      ((connHandlerInit []).firstSerial ≠ some "" →
        (connHandlerInit []).firstSerial ≠ deviceA.serial_number →
        s2.wantedState = .CONNECTED ∧
        s2.firstSerial = (connHandlerInit []).firstSerial)) :=
  ⟨rfl, rfl, by decide,
   c4_not_connected_adopts_first_added (connHandlerInit []) [deviceA] deviceA []
     rfl rfl (by decide)⟩

/-- Claim C6: `send_data_to_pacemaker` forwards unconditionally to the
transport's enqueue operation: for every handler state (whatever the
connection state) the encoded bytes become `_sent_data` and the
pending-write flag is raised; nothing else changes and no state is
consulted. -/
theorem c6_send_unconditional (s : ConnHState) (p : Params) (bs : List Nat)
    (henc : encodeParameterWrite p = some bs) :
    send_data_to_pacemaker s p =
      some { s with serial := { s.serial with sentData := bs, sendParams := true } } := by
  simp [send_data_to_pacemaker, send_params_to_pacemaker, henc]

/-- Witness for claim C6 at the freshly constructed handler (state
NOT_CONNECTED) and the concrete `exampleParams`. -/
theorem c6_send_unconditional_witness :
    encodeParameterWrite exampleParams = some exampleBytes ∧
    send_data_to_pacemaker (connHandlerInit []) exampleParams =
      some { connHandlerInit [] with serial := { (connHandlerInit []).serial with sentData := exampleBytes, sendParams := true } } :=
  ⟨by decide,
   c6_send_unconditional (connHandlerInit []) exampleParams exampleBytes (by decide)⟩

/-- Claim C7, evaluated at the failing input: on a freshly constructed
handler where no device was ever attached, `register_device` hits the
`comports()` list that `__init__` left in `_device` (contradicting the
`_device: ListPortInfo` annotation) and raises `AttributeError` instead of
surfacing the "Please plug in a pacemaker!" notice. -/
theorem c7_register_initial_attrerror (l : List LPI) :
    register_device (connHandlerInit l) = (connHandlerInit l, .attrError) ∧
    RegNotice.attrError ≠ RegNotice.alert "Please plug in a pacemaker!" := by
  constructor
  · rfl
  · intro hx
    cases hx

theorem update_state_registered_steady (s : ConnHState) (scan : List LPI)
    (sr : Option String)
    (hcur : s.currentState = .REGISTERED)
    (hwant : s.wantedState = .REGISTERED)
    (hprev : s.prevState = .REGISTERED)
    (hs : slotSerial s.device = some sr)
    (hany : (s.oldDevices.filter fun x => !(lpiMem x (filter_devices scan))).any
      (fun x => sr == x.serial_number) = false) :
    update_state s scan =
      .ok (finalizeTick { s with devices := filter_devices scan, currentState := .REGISTERED }, []) := by
  have hcc : (if s.currentState ≠ s.wantedState then s.wantedState
              else s.currentState) = .REGISTERED := by
    rw [hcur, hwant]
    simp
  have hres : handle_removed_device
      { s with devices := filter_devices scan, currentState := .REGISTERED, prevState := .REGISTERED }
      (s.oldDevices.filter fun x => !(lpiMem x (filter_devices scan))) =
      .ok ({ s with devices := filter_devices scan, currentState := .REGISTERED, prevState := .REGISTERED }, []) := by
    cases hc : s.oldDevices.filter fun x => !(lpiMem x (filter_devices scan)) with
    | nil => rfl
    | cons a b =>
      rw [hc] at hany
      simp [handle_removed_device, hs, hany]
  simp only [update_state, hcc]
  simp [stepBranches, hprev, hres]

theorem update_state_registered_removal (s : ConnHState) (scan : List LPI)
    (sr : Option String) (r0 : LPI) (rtl : List LPI)
    (hcur : s.currentState = .REGISTERED)
    (hwant : s.wantedState = .REGISTERED)
    (hprev : s.prevState = .REGISTERED)
    (hs : slotSerial s.device = some sr)
    (hrem : s.oldDevices.filter (fun x => !(lpiMem x (filter_devices scan))) = r0 :: rtl)
    (hany : (r0 :: rtl).any (fun x => sr == x.serial_number) = true) :
    update_state s scan =
      .ok (finalizeTick { s with devices := filter_devices scan, currentState := .REGISTERED, wantedState := .NOT_CONNECTED, device := .lpi blankLPI, serial := stop_serial_comm s.serial },
           [.connectStatusChange .NOT_CONNECTED r0.serial_number]) := by
  have hcc : (if s.currentState ≠ s.wantedState then s.wantedState
              else s.currentState) = .REGISTERED := by
    rw [hcur, hwant]
    simp
  have hres : handle_removed_device
      { s with devices := filter_devices scan, currentState := .REGISTERED, prevState := .REGISTERED }
      (s.oldDevices.filter fun x => !(lpiMem x (filter_devices scan))) =
      .ok ({ s with devices := filter_devices scan, currentState := .REGISTERED, prevState := .REGISTERED, wantedState := .NOT_CONNECTED, device := .lpi blankLPI, serial := stop_serial_comm s.serial },
           [.connectStatusChange .NOT_CONNECTED r0.serial_number]) := by
    rw [hrem]
    simp [handle_removed_device, hs, hany]
  simp only [update_state, hcc]
  simp [stepBranches, hprev, hres]

/-- Claim C5: while device D is current in steady REGISTERED state, a tick
whose scan keeps D present (no old device carrying D's serial number has
vanished) leaves the active device equal to D with no event and no state
change, even if further eligible devices appear (added devices are ignored
outside NOT_CONNECTED); a tick from which D is absent requests
NOT_CONNECTED, emits the NOT_CONNECTED event with a removed device's serial
number, clears the active device to a blank `ListPortInfo` and unbinds the
transport's port, and the following tick runs with current state
NOT_CONNECTED. -/
theorem c5_registered_device_stability (s : ConnHState) (D : LPI)
    (hcur : s.currentState = .REGISTERED)
    (hwant : s.wantedState = .REGISTERED)
    (hprev : s.prevState = .REGISTERED)
    (hdev : s.device = .lpi D) :
    (∀ scan : List LPI,
      lpiMem D (filter_devices scan) = true →
      (∀ r ∈ s.oldDevices, D.serial_number = r.serial_number →
        lpiMem r (filter_devices scan) = true) →
      ∃ s2, update_state s scan = .ok (s2, []) ∧
        s2.device = .lpi D ∧ s2.currentState = .REGISTERED ∧
        s2.wantedState = .REGISTERED ∧ s2.serial = s.serial) ∧
    (∀ scan : List LPI,
      D ∈ s.oldDevices →
      lpiMem D (filter_devices scan) = false →
      ∃ s2 r0 rtl,
        s.oldDevices.filter (fun x => !(lpiMem x (filter_devices scan))) = r0 :: rtl ∧
        update_state s scan =
          .ok (s2, [.connectStatusChange .NOT_CONNECTED r0.serial_number]) ∧
        s2.wantedState = .NOT_CONNECTED ∧ s2.device = .lpi blankLPI ∧
        s2.serial.port = none ∧
        (∀ scan2 : List LPI, ∃ s3 evs3,
          update_state s2 scan2 = .ok (s3, evs3) ∧
          s3.currentState = .NOT_CONNECTED)) := by
  constructor
  · intro scan hpres hg
    have hany : (s.oldDevices.filter fun x => !(lpiMem x (filter_devices scan))).any
        (fun x => D.serial_number == x.serial_number) = false := by
      rw [List.any_eq_false]
      intro r hr
      rw [List.mem_filter] at hr
      obtain ⟨hrold, hrnot⟩ := hr
      intro hb
      have hser : D.serial_number = r.serial_number := eq_of_beq hb
      have hmem := hg r hrold hser
      rw [hmem] at hrnot
      simp at hrnot
    refine ⟨finalizeTick { s with devices := filter_devices scan, currentState := .REGISTERED },
      update_state_registered_steady s scan D.serial_number hcur hwant hprev
        (by simp [hdev, slotSerial]) hany,
      by simp [finalizeTick, hdev], by simp [finalizeTick],
      by simp [finalizeTick, hwant], by simp [finalizeTick]⟩
  · intro scan hDold habs
    have hDrem : D ∈ s.oldDevices.filter fun x => !(lpiMem x (filter_devices scan)) := by
      rw [List.mem_filter]
      exact ⟨hDold, by rw [habs]; rfl⟩
    cases hremc : s.oldDevices.filter fun x => !(lpiMem x (filter_devices scan)) with
    | nil =>
      rw [hremc] at hDrem
      cases hDrem
    | cons r0 rtl =>
      rw [hremc] at hDrem
      have hany : (r0 :: rtl).any (fun x => D.serial_number == x.serial_number) = true := by
        rw [List.any_eq_true]
        exact ⟨D, hDrem, by simp⟩
      have hupd := update_state_registered_removal s scan D.serial_number r0 rtl
        hcur hwant hprev (by simp [hdev, slotSerial]) hremc hany
      refine ⟨finalizeTick { s with devices := filter_devices scan, currentState := .REGISTERED, wantedState := .NOT_CONNECTED, device := .lpi blankLPI, serial := stop_serial_comm s.serial },
        r0, rtl, rfl, hupd,
        by simp [finalizeTick], by simp [finalizeTick],
        by simp [finalizeTick, stop_serial_comm], ?_⟩
      intro scan2
      exact update_state_to_not_connected _ scan2 (by simp [finalizeTick])

/-- A steady REGISTERED session with `deviceA` current and remembered. -/
def registeredState : ConnHState :=
  { device := .lpi deviceA, devices := [deviceA], oldDevices := [deviceA],
    firstSerial := some "SN-A",
    currentState := .REGISTERED, prevState := .REGISTERED,
    wantedState := .REGISTERED,
    serial := { port := some "COM3", buf := [], sentData := [], sendParams := false } }

/-- Witness for claim C5: `deviceB` appearing next to `deviceA` is ignored
(the session stays on `deviceA`), and `deviceA` vanishing from the scan
tears the session down to NOT_CONNECTED with the port unbound. -/
theorem c5_registered_device_stability_witness :
    (∃ s2, update_state registeredState [deviceA, deviceB] = .ok (s2, []) ∧
      s2.device = .lpi deviceA ∧ s2.currentState = .REGISTERED ∧
      s2.wantedState = .REGISTERED ∧ s2.serial = registeredState.serial) ∧
    (∃ s2 r0 rtl,
      registeredState.oldDevices.filter
        (fun x => !(lpiMem x (filter_devices []))) = r0 :: rtl ∧
      update_state registeredState [] =
        .ok (s2, [.connectStatusChange .NOT_CONNECTED r0.serial_number]) ∧
      s2.wantedState = .NOT_CONNECTED ∧ s2.device = .lpi blankLPI ∧
      s2.serial.port = none ∧
      (∀ scan2 : List LPI, ∃ s3 evs3,
        update_state s2 scan2 = .ok (s3, evs3) ∧
        s3.currentState = .NOT_CONNECTED)) :=
  ⟨(c5_registered_device_stability registeredState deviceA rfl rfl rfl rfl).1
      [deviceA, deviceB] (by decide) (by decide),
   (c5_registered_device_stability registeredState deviceA rfl rfl rfl rfl).2
      [] (by decide) (by decide)⟩

/-- Witness for claim C2's amended theorem at the concrete sent bytes and an
80-byte echoed payload. -/
theorem c2_verify_params_iff_witness :
    ((verify_params exampleBytes echoedExample).1 = true ↔
      echoedExample.take PARAMS_NUM_BYTES = exampleBytes) ∧
    dispatch serialHandlerInit (1 :: echoedExample) =
      (serialHandlerInit,
        [.paramsReceived (verify_params serialHandlerInit.sentData echoedExample).1
                         (verify_params serialHandlerInit.sentData echoedExample).2]) :=
  c2_verify_params_iff exampleBytes echoedExample serialHandlerInit echoedExample
